import Mathlib

/-!
Verification of the snapcart-coloured checkout and payment-reconciliation flow.

The definitions below are a shallow embedding of the TypeScript source:
  - src/app/supermarket/[id]/page.tsx  (two checkout variants: a plain one with
    a stock-decrement loop and no authentication gate, and a toast-based one
    with an authentication gate and no stock writes)
  - src/app/login/page.tsx             (checkout with an authentication gate,
    no stock writes, and a call to the pay-initiation endpoint)
  - src/app/api/paystack-webhook/route.ts  (webhook reconciler)
  - src/app/api/pay/route.ts           (pay-initiation endpoint)

Numbers that are JavaScript numbers in the source (price, stock, quantity,
amount) are modelled as Int.  The Supabase tables are modelled as lists of
rows.  External collaborators (the HMAC primitive, JSON parsing of the raw
webhook body, the Paystack gateway, the pay API as seen from the client) are
modelled as explicit function parameters, so each theorem quantifies over
them.
-/

namespace SnapCart

/-- Row of the products table (src Product interface: id, name, price, stock). -/
structure Product where
  id : String
  name : String
  price : Int
  stock : Int
deriving Repr, DecidableEq

/-- Cart line: a client-held product snapshot plus a quantity. -/
structure CartItem where
  product : Product
  quantity : Int
deriving Repr, DecidableEq

/-- Row of the orders table. user_id is nullable (the plain supermarket
checkout inserts no user_id). -/
structure Order where
  id : String
  supermarket_id : String
  user_id : Option String
  total_amount : Int
  status : String
deriving Repr, DecidableEq

/-- Row of the order_items table. -/
structure OrderItemRow where
  order_id : String
  product_id : String
  quantity : Int
  price : Int
deriving Repr, DecidableEq

/-- The durable store: products, orders and order_items tables. -/
structure DB where
  products : List Product
  orders : List Order
  order_items : List OrderItemRow
deriving Repr, DecidableEq

/-- Authenticated user as used by the checkout variants. -/
structure User where
  id : String
  email : String
deriving Repr, DecidableEq

/-- supabase.from("products").select("*").in("id", ids): the batched re-fetch
of every product whose id occurs in the id list. -/
def fetchByIds (products : List Product) (ids : List String) : List Product :=
  products.filter (fun p => ids.contains p.id)

/-- latestProducts?.find((p) => p.id === item.product.id) in the validation
loop of each checkout variant. -/
def findLatest (latest : List Product) (pid : String) : Option Product :=
  latest.find? (fun p => p.id == pid)

/-- One iteration of the validation loop: the line fails when the product is
absent from the re-fetch or latest.stock < item.quantity. -/
def lineFails (latest : List Product) (item : CartItem) : Bool :=
  match findLatest latest item.product.id with
  | none => true
  | some l => decide (l.stock < item.quantity)

/-- The validation loop: returns the name of the first failing cart line (the
loop returns out of checkout at the first failure), none if all lines pass. -/
def validateCart (latest : List Product) : List CartItem → Option String
  | [] => none
  | item :: rest =>
      if lineFails latest item then some item.product.name
      else validateCart latest rest

/-- cart.reduce((sum, i) => sum + i.quantity * i.product.price, 0): the order
total, computed from the cart-snapshot price of each line. -/
def cartTotal (cart : List CartItem) : Int :=
  cart.foldl (fun sum i => sum + i.quantity * i.product.price) 0

/-- The order_items batch insert: one row per cart line, with the snapshot
price. -/
def orderItemsOf (orderId : String) (cart : List CartItem) : List OrderItemRow :=
  cart.map (fun i => ⟨orderId, i.product.id, i.quantity, i.product.price⟩)

/-- supabase.from("products").update(stock: newStock).eq("id", pid): sets the
stock column of every row whose id matches. -/
def updateStock (products : List Product) (pid : String) (newStock : Int) : List Product :=
  products.map (fun p => if p.id == pid then { p with stock := newStock } else p)

/-- The stock-write loop of the plain supermarket checkout: for each cart line
an independent write setting stock to i.product.stock - i.quantity, i.e. the
CART SNAPSHOT stock minus the quantity. -/
def decrementAll (products : List Product) (cart : List CartItem) : List Product :=
  cart.foldl (fun ps i => updateStock ps i.product.id (i.product.stock - i.quantity)) products

/-- Outcome of the plain supermarket checkout. -/
inductive CheckoutResult where
  | emptyCart
  | insufficientStock (productName : String)
  | success (orderId : String)
deriving Repr, DecidableEq

/-- handleCheckout of the first component in src/app/supermarket/[id]/page.tsx:
no authentication gate; validates against the re-fetch, computes the total from
snapshot prices, inserts the order (user_id absent) and order_items, then runs
the per-line stock-write loop.  newOrderId stands for the id the store assigns
to the inserted order row. -/
def supermarketCheckout (db : DB) (supermarketId newOrderId : String)
    (cart : List CartItem) : CheckoutResult × DB :=
  if cart.isEmpty then (CheckoutResult.emptyCart, db)
  else
    match validateCart (fetchByIds db.products (cart.map (fun i => i.product.id))) cart with
    | some name => (CheckoutResult.insufficientStock name, db)
    | none =>
        (CheckoutResult.success newOrderId,
         { products := decrementAll db.products cart,
           orders := db.orders ++
             [⟨newOrderId, supermarketId, none, cartTotal cart, "pending"⟩],
           order_items := db.order_items ++ orderItemsOf newOrderId cart })

/-- Outcome of the login-page checkout. -/
inductive LoginCheckoutResult where
  | authRequired
  | emptyCart
  | insufficientStock (productName : String)
  | redirected (url : String)
  | paymentStartFailed
deriving Repr, DecidableEq

/-- handleCheckout of src/app/login/page.tsx: redirects to the login page for
an anonymous user before touching anything; otherwise validates, inserts the
order (with user_id) and order_items, performs NO stock writes, and calls the
pay API with the user's email, the snapshot total and the order id.  pay
models the fetch of /api/pay returning the authorization_url on success; the
third component of the result records the arguments of the pay call, none if
the pay API was never reached. -/
def loginCheckout (db : DB) (supermarketId : String) (user : Option User)
    (newOrderId : String) (cart : List CartItem)
    (pay : String → Int → String → Option String) :
    LoginCheckoutResult × DB × Option (String × Int × String) :=
  match user with
  | none => (LoginCheckoutResult.authRequired, db, none)
  | some u =>
    if cart.isEmpty then (LoginCheckoutResult.emptyCart, db, none)
    else
      match validateCart (fetchByIds db.products (cart.map (fun i => i.product.id))) cart with
      | some name => (LoginCheckoutResult.insufficientStock name, db, none)
      | none =>
          let total := cartTotal cart
          let db1 : DB :=
            { db with
              orders := db.orders ++
                [⟨newOrderId, supermarketId, some u.id, total, "pending"⟩],
              order_items := db.order_items ++ orderItemsOf newOrderId cart }
          match pay u.email total newOrderId with
          | some url => (LoginCheckoutResult.redirected url, db1, some (u.email, total, newOrderId))
          | none => (LoginCheckoutResult.paymentStartFailed, db1, some (u.email, total, newOrderId))

/-- Outcome of the toast-based supermarket checkout. -/
inductive ToastCheckoutResult where
  | loginFirst
  | emptyCart
  | insufficientStock (productName : String)
  | placed
deriving Repr, DecidableEq

/-- handleCheckout of the second component in src/app/supermarket/[id]/page.tsx
(the toast-based variant): rejects with "Please login first" when user or
selectedSupermarket is absent, before any store access; otherwise validates,
inserts the order (with user_id) and order_items, and performs NO stock
writes. -/
def toastCheckout (db : DB) (user : Option User) (selectedSupermarket : Option String)
    (newOrderId : String) (cart : List CartItem) : ToastCheckoutResult × DB :=
  match user, selectedSupermarket with
  | none, _ => (ToastCheckoutResult.loginFirst, db)
  | some _, none => (ToastCheckoutResult.loginFirst, db)
  | some u, some sid =>
    if cart.isEmpty then (ToastCheckoutResult.emptyCart, db)
    else
      match validateCart (fetchByIds db.products (cart.map (fun i => i.product.id))) cart with
      | some name => (ToastCheckoutResult.insufficientStock name, db)
      | none =>
          (ToastCheckoutResult.placed,
           { db with
             orders := db.orders ++
               [⟨newOrderId, sid, some u.id, cartTotal cart, "pending"⟩],
             order_items := db.order_items ++ orderItemsOf newOrderId cart })

/-- Lookup of a product row by id in the stored table. -/
def getProduct (products : List Product) (pid : String) : Option Product :=
  products.find? (fun p => p.id == pid)

/-- Modelled from the spec: the total the spec prescribes, "Σ(quantity ×
product.price) using the freshly re-fetched prices".  This definition follows
the spec's words (it reads the price from the store, not the cart snapshot)
and exists only to be compared with the source's cartTotal.  A line whose
product is absent from the store contributes 0. -/
def specFreshTotal (products : List Product) (cart : List CartItem) : Int :=
  (cart.map (fun i =>
    match getProduct products i.product.id with
    | some l => i.quantity * l.price
    | none => 0)).sum

/-- Result of JSON.parse on the raw webhook body followed by the handler's
field accesses.  malformed: JSON.parse throws.  noData: the body parses but
event.data is absent, so the handler's access of event.data.reference throws.
parsed: event, data.reference and data.amount are all available. -/
inductive ParsedBody where
  | malformed
  | noData (event : String)
  | parsed (event : String) (reference : String) (amount : Int)
deriving Repr, DecidableEq

/-- Response of the webhook route: 200 with status ok, 401 with an
invalid-signature error, or 500 with the caught exception's message. -/
inductive WebhookResp where
  | ok
  | invalidSignature
  | serverError
deriving Repr, DecidableEq

/-- verifySignature of src/app/api/paystack-webhook/route.ts.  hmac stands for
crypto.createHmac("sha512", secret).update(payload).digest("hex"); the
function compares its output with the supplied header.  A null header, and an
empty-string header (both falsy in JavaScript), return false immediately. -/
def verifySignature (hmac : String → String → String) (secret : String)
    (payload : String) (signature : Option String) : Bool :=
  match signature with
  | none => false
  | some s => if s == "" then false else hmac secret payload == s

/-- supabase.from("orders").update(status).eq("id", reference): sets the
status column of every order row whose id matches the reference. -/
def updateOrderStatus (orders : List Order) (reference status : String) : List Order :=
  orders.map (fun o => if o.id == reference then { o with status := status } else o)

/-- POST of src/app/api/paystack-webhook/route.ts.  parse models JSON.parse on
the raw body together with the handler's accesses of event.data.reference and
event.data.amount; the try/catch turns any throw into a 500 response.  The
signature check runs first; the charge.success and charge.failed branches are
two sequential if statements. -/
def webhookPOST (hmac : String → String → String) (secret : String)
    (parse : String → ParsedBody) (rawBody : String) (signature : Option String)
    (orders : List Order) : WebhookResp × List Order :=
  if ¬ verifySignature hmac secret rawBody signature then
    (WebhookResp.invalidSignature, orders)
  else
    match parse rawBody with
    | ParsedBody.malformed => (WebhookResp.serverError, orders)
    | ParsedBody.noData _ => (WebhookResp.serverError, orders)
    | ParsedBody.parsed ev reference _amount =>
        let orders1 :=
          if ev == "charge.success" then updateOrderStatus orders reference "paid"
          else orders
        let orders2 :=
          if ev == "charge.failed" then updateOrderStatus orders1 reference "failed"
          else orders1
        (WebhookResp.ok, orders2)

/-- Request body of the pay-initiation endpoint; a none field models a field
absent from the JSON body (undefined after destructuring). -/
structure PayBody where
  email : Option String
  amount : Option Int
  reference : Option String
deriving Repr, DecidableEq

/-- Response of the external Paystack initialize call: res.ok and the JSON
body (kept abstract as a string). -/
structure GatewayResponse where
  ok : Bool
  body : String
deriving Repr, DecidableEq

/-- Response of the pay-initiation endpoint. -/
inductive PayResp where
  | missing400
  | gatewayError400 (body : String)
  | success200 (body : String)
deriving Repr, DecidableEq

/-- JavaScript truthiness of the three destructured fields: undefined, the
empty string and the number 0 are all falsy. -/
def truthyStr : Option String → Bool
  | none => false
  | some s => !(s == "")

/-- JavaScript truthiness for the numeric amount field. -/
def truthyInt : Option Int → Bool
  | none => false
  | some n => !(n == 0)

/-- POST of src/app/api/pay/route.ts.  gateway models the fetch of the
Paystack initialize endpoint (email, amount in minor units, reference).  The
second component of the result records the arguments of the gateway call,
none if the gateway was never reached.  On a truthy body the amount is
multiplied by 100 before the call; an ok gateway response is returned verbatim
with status 200, a non-ok one becomes a 400 carrying the provider's body. -/
def payPOST (gateway : String → Int → String → GatewayResponse) (body : PayBody) :
    PayResp × Option (String × Int × String) :=
  if ¬ (truthyStr body.email && truthyInt body.amount && truthyStr body.reference) then
    (PayResp.missing400, none)
  else
    match body.email, body.amount, body.reference with
    | some e, some a, some r =>
        let res := gateway e (a * 100) r
        if res.ok then (PayResp.success200 res.body, some (e, a * 100, r))
        else (PayResp.gatewayError400 res.body, some (e, a * 100, r))
    | _, _, _ => (PayResp.missing400, none)

/-! Helper lemmas about the validation loop, the stock-write loop and the
order-status update. -/

theorem validateCart_append_fail (latest : List Product) (pre suf : List CartItem)
    (item : CartItem) (hpre : ∀ j ∈ pre, lineFails latest j = false)
    (hitem : lineFails latest item = true) :
    validateCart latest (pre ++ item :: suf) = some item.product.name := by
  induction pre with
  | nil => simp [validateCart, hitem]
  | cons a t ih =>
      have ha : lineFails latest a = false := hpre a (by simp)
      simpa [validateCart, ha] using ih (fun j hj => hpre j (by simp [hj]))

theorem validateCart_none_mem {latest : List Product} {cart : List CartItem}
    (h : validateCart latest cart = none) {item : CartItem} (hmem : item ∈ cart) :
    lineFails latest item = false := by
  induction cart with
  | nil => cases hmem
  | cons a t ih =>
      by_cases hf : lineFails latest a = true
      · simp [validateCart, hf] at h
      · rcases List.mem_cons.mp hmem with rfl | hmem'
        · simpa using hf
        · exact ih (by simpa [validateCart, hf] using h) hmem'

theorem lineFails_false_iff {latest : List Product} {item : CartItem}
    (h : lineFails latest item = false) :
    ∃ l, findLatest latest item.product.id = some l ∧ item.quantity ≤ l.stock := by
  unfold lineFails at h
  cases hf : findLatest latest item.product.id with
  | none => rw [hf] at h; cases h
  | some l =>
      rw [hf] at h
      refine ⟨l, rfl, ?_⟩
      simpa [not_lt] using of_decide_eq_false h

theorem findLatest_fetchByIds {ps : List Product} {ids : List String} {pid : String}
    {l : Product} (h : findLatest (fetchByIds ps ids) pid = some l) :
    l ∈ ps ∧ l.id = pid := by
  unfold findLatest at h
  have hmem := List.mem_of_find?_eq_some h
  have hpred := List.find?_some (p := fun p : Product => p.id == pid) h
  exact ⟨(List.mem_filter.mp hmem).1, by simpa using hpred⟩

theorem getProduct_isSome_of_mem {ps : List Product} {l : Product} (hmem : l ∈ ps) :
    (getProduct ps l.id).isSome := by
  rw [getProduct, List.find?_isSome]
  exact ⟨l, hmem, by simp⟩

theorem getProduct_updateStock (ps : List Product) (pid : String) (s : Int) (qid : String) :
    getProduct (updateStock ps pid s) qid =
      if qid = pid then (getProduct ps qid).map (fun p => { p with stock := s })
      else getProduct ps qid := by
  have hfind : getProduct (updateStock ps pid s) qid =
      (getProduct ps qid).map
        (fun p => if p.id == pid then { p with stock := s } else p) := by
    rw [getProduct, updateStock, List.find?_map]
    have hcomp :
        ((fun p : Product => p.id == qid) ∘
          (fun p : Product => if p.id == pid then { p with stock := s } else p))
        = (fun p : Product => p.id == qid) := by
      funext p
      by_cases h : p.id = pid <;> simp [h]
    rw [hcomp, getProduct]
  rw [hfind]
  cases hf : getProduct ps qid with
  | none => simp
  | some e =>
      have he : e.id = qid := by
        have := List.find?_some (p := fun p : Product => p.id == qid)
          (by simpa [getProduct] using hf)
        simpa using this
      by_cases hq : qid = pid
      · simp [he, hq]
      · simp [he, hq]

theorem decrementAll_cons (ps : List Product) (c : CartItem) (t : List CartItem) :
    decrementAll ps (c :: t) =
      decrementAll (updateStock ps c.product.id (c.product.stock - c.quantity)) t := rfl

theorem getProduct_decrementAll_not_mem (ps : List Product) (cart : List CartItem)
    (pid : String) (h : pid ∉ cart.map (fun i => i.product.id)) :
    getProduct (decrementAll ps cart) pid = getProduct ps pid := by
  induction cart generalizing ps with
  | nil => rfl
  | cons c t ih =>
      rw [decrementAll_cons]
      have hne : pid ≠ c.product.id := by
        intro he; exact h (by simp [he])
      rw [ih _ (fun hm => h (by simp [List.mem_map] at hm ⊢; tauto))]
      rw [getProduct_updateStock]
      simp [hne]

theorem getProduct_decrementAll_mem (ps : List Product) (cart : List CartItem)
    (hnd : (cart.map (fun i => i.product.id)).Nodup) {item : CartItem} (hmem : item ∈ cart) :
    getProduct (decrementAll ps cart) item.product.id =
      (getProduct ps item.product.id).map
        (fun p => { p with stock := item.product.stock - item.quantity }) := by
  induction cart generalizing ps with
  | nil => cases hmem
  | cons c t ih =>
      rw [List.map_cons] at hnd
      have hnd' := List.nodup_cons.mp hnd
      rcases List.mem_cons.mp hmem with rfl | hmem'
      · rw [decrementAll_cons, getProduct_decrementAll_not_mem _ _ _ hnd'.1]
        rw [getProduct_updateStock]
        simp
      · rw [decrementAll_cons, ih _ hnd'.2 hmem']
        have hne : item.product.id ≠ c.product.id := by
          intro he
          exact hnd'.1 (he ▸ List.mem_map.mpr ⟨item, hmem', rfl⟩)
        rw [getProduct_updateStock]
        simp [hne]

theorem foldl_add_eq_sum (f : CartItem → Int) (a : Int) (l : List CartItem) :
    l.foldl (fun s i => s + f i) a = a + (l.map f).sum := by
  induction l generalizing a with
  | nil => simp
  | cons x t ih => simp [List.foldl_cons, ih]; ring

theorem cartTotal_eq_sum (cart : List CartItem) :
    cartTotal cart = (cart.map (fun i => i.quantity * i.product.price)).sum := by
  simpa using foldl_add_eq_sum (fun i => i.quantity * i.product.price) 0 cart

theorem supermarketCheckout_success_eq (db : DB) (sid oid : String) (cart : List CartItem)
    (hne : cart ≠ [])
    (hval : validateCart (fetchByIds db.products (cart.map (fun i => i.product.id))) cart
      = none) :
    supermarketCheckout db sid oid cart =
      (CheckoutResult.success oid,
       { products := decrementAll db.products cart,
         orders := db.orders ++ [⟨oid, sid, none, cartTotal cart, "pending"⟩],
         order_items := db.order_items ++ orderItemsOf oid cart }) := by
  unfold supermarketCheckout
  simp [hne, hval]

theorem loginCheckout_products_unchanged (db : DB) (sid : String) (user : Option User)
    (oid : String) (cart : List CartItem) (pay : String → Int → String → Option String) :
    (loginCheckout db sid user oid cart pay).2.1.products = db.products := by
  unfold loginCheckout
  cases user with
  | none => rfl
  | some u =>
      by_cases he : cart.isEmpty
      · simp [he]
      · simp only [he, if_false]
        cases validateCart (fetchByIds db.products (cart.map fun i => i.product.id)) cart with
        | some name => rfl
        | none =>
            simp only
            cases pay u.email (cartTotal cart) oid <;> rfl

theorem updateOrderStatus_idem (orders : List Order) (reference status : String) :
    updateOrderStatus (updateOrderStatus orders reference status) reference status =
      updateOrderStatus orders reference status := by
  induction orders with
  | nil => rfl
  | cons o t ih =>
      by_cases h : o.id = reference <;> simp [updateOrderStatus, h] at * <;> simpa using ih

/-! Claim theorems for the webhook reconciler. -/

/-- C4: for every webhook request, the handler compares the keyed hash of the
exact raw body (the hmac parameter stands for the SHA-512 HMAC primitive with
the shared secret) against the x-paystack-signature header first: whenever the
header is absent or differs from the computed hash, the response is the 401
invalid-signature error and the orders table is returned unchanged, whatever
the parse function would have produced — so no parsing result and no side
effect is ever consulted. -/
theorem C4_invalid_signature_rejected
    (hmac : String → String → String) (secret : String)
    (parse : String → ParsedBody) (rawBody : String) (signature : Option String)
    (orders : List Order)
    (h : signature = none ∨ ∃ s, signature = some s ∧ s ≠ hmac secret rawBody) :
    webhookPOST hmac secret parse rawBody signature orders
      = (WebhookResp.invalidSignature, orders) := by
  have hv : verifySignature hmac secret rawBody signature = false := by
    rcases h with rfl | ⟨s, rfl, hs⟩
    · rfl
    · by_cases hse : s = ""
      · simp [verifySignature, hse]
      · simp only [verifySignature]
        rw [if_neg (by simpa using hse)]
        exact beq_false_of_ne (Ne.symm hs)
  unfold webhookPOST
  simp [hv]

/-- Witness for C4 at a concrete input: header absent. -/
theorem C4_witness :
    webhookPOST (fun _ _ => "h") "k" (fun _ => ParsedBody.malformed) "body" none
      [⟨"o1", "s1", none, 200, "pending"⟩]
      = (WebhookResp.invalidSignature, [⟨"o1", "s1", none, 200, "pending"⟩]) :=
  C4_invalid_signature_rejected _ _ _ _ _ _ (Or.inl rfl)

/-- C5: for a verified, well-formed payload, event charge.success sets the
status of every order whose id equals data.reference to paid, charge.failed
sets it to failed, and any other event type is acknowledged with the 200
response while the orders table is returned untouched. -/
theorem C5_event_dispatch
    (hmac : String → String → String) (secret : String)
    (parse : String → ParsedBody) (rawBody : String) (signature : Option String)
    (orders : List Order) (ev reference : String) (amount : Int)
    (hsig : verifySignature hmac secret rawBody signature = true)
    (hparse : parse rawBody = ParsedBody.parsed ev reference amount) :
    webhookPOST hmac secret parse rawBody signature orders =
      (WebhookResp.ok,
       if ev = "charge.success" then
         orders.map (fun o => if o.id = reference then { o with status := "paid" } else o)
       else if ev = "charge.failed" then
         orders.map (fun o => if o.id = reference then { o with status := "failed" } else o)
       else orders) := by
  unfold webhookPOST
  rw [hsig, hparse]
  simp only [Bool.not_true, Bool.false_eq_true, if_false, ite_false, ite_true]
  by_cases h1 : ev = "charge.success"
  · simp [h1, updateOrderStatus]
  · by_cases h2 : ev = "charge.failed"
    · simp [h1, h2, updateOrderStatus]
    · simp [h1, h2]

/-- Witness for C5 at a concrete input: a verified charge.success notification
for order o1 turns its pending status into paid. -/
theorem C5_witness :
    webhookPOST (fun _ _ => "sig") "k"
      (fun _ => ParsedBody.parsed "charge.success" "o1" 20000) "body" (some "sig")
      [⟨"o1", "s1", none, 200, "pending"⟩]
      = (WebhookResp.ok, [⟨"o1", "s1", none, 200, "paid"⟩]) := by
  rw [C5_event_dispatch (fun _ _ => "sig") "k"
    (fun _ => ParsedBody.parsed "charge.success" "o1" 20000) "body" (some "sig")
    [⟨"o1", "s1", none, 200, "pending"⟩] "charge.success" "o1" 20000 (by decide) rfl]
  decide

/-- C6: replaying the handler on the identical verified, well-formed request
leaves the orders table exactly as after the first call and acknowledges with
the 200 response both times. -/
theorem C6_replay_idempotent
    (hmac : String → String → String) (secret : String)
    (parse : String → ParsedBody) (rawBody : String) (signature : Option String)
    (orders : List Order) (ev reference : String) (amount : Int)
    (hsig : verifySignature hmac secret rawBody signature = true)
    (hparse : parse rawBody = ParsedBody.parsed ev reference amount) :
    (webhookPOST hmac secret parse rawBody signature orders).1 = WebhookResp.ok ∧
    webhookPOST hmac secret parse rawBody signature
        (webhookPOST hmac secret parse rawBody signature orders).2
      = webhookPOST hmac secret parse rawBody signature orders := by
  unfold webhookPOST
  rw [hsig, hparse]
  simp only [Bool.not_true, Bool.false_eq_true, if_false, ite_false, ite_true]
  by_cases h1 : ev = "charge.success"
  · subst h1
    simp [updateOrderStatus_idem]
  · by_cases h2 : ev = "charge.failed"
    · subst h2
      simp [beq_iff_eq, updateOrderStatus_idem]
    · simp [beq_iff_eq, h1, h2]

/-- Witness for C6 at a concrete input: replaying a verified charge.success
notification for order o1 reproduces the state after the first delivery. -/
theorem C6_witness :
    webhookPOST (fun _ _ => "sig") "k"
      (fun _ => ParsedBody.parsed "charge.success" "o1" 20000) "body" (some "sig")
      (webhookPOST (fun _ _ => "sig") "k"
        (fun _ => ParsedBody.parsed "charge.success" "o1" 20000) "body" (some "sig")
        [⟨"o1", "s1", none, 200, "pending"⟩]).2
      = webhookPOST (fun _ _ => "sig") "k"
          (fun _ => ParsedBody.parsed "charge.success" "o1" 20000) "body" (some "sig")
          [⟨"o1", "s1", none, 200, "pending"⟩] :=
  (C6_replay_idempotent (fun _ _ => "sig") "k"
    (fun _ => ParsedBody.parsed "charge.success" "o1" 20000) "body" (some "sig")
    [⟨"o1", "s1", none, 200, "pending"⟩] "charge.success" "o1" 20000 (by decide) rfl).2

/-- C8: once the signature verifies, a raw body that JSON.parse rejects, or
whose parsed value lacks the data object (so the handler's field access
throws), is answered by the caught-exception 500 response with the orders
table unchanged; and for every input whatsoever the handler returns one of
the three structured responses, never an escaping exception. -/
theorem C8_malformed_payload
    (hmac : String → String → String) (secret : String)
    (parse : String → ParsedBody) (rawBody : String) (signature : Option String)
    (orders : List Order) :
    (verifySignature hmac secret rawBody signature = true →
      (parse rawBody = ParsedBody.malformed ∨ ∃ e, parse rawBody = ParsedBody.noData e) →
      webhookPOST hmac secret parse rawBody signature orders
        = (WebhookResp.serverError, orders)) ∧
    ((webhookPOST hmac secret parse rawBody signature orders).1 = WebhookResp.ok ∨
     (webhookPOST hmac secret parse rawBody signature orders).1 = WebhookResp.invalidSignature ∨
     (webhookPOST hmac secret parse rawBody signature orders).1 = WebhookResp.serverError) := by
  constructor
  · intro hsig hbad
    unfold webhookPOST
    rw [hsig]
    rcases hbad with hb | ⟨e, hb⟩ <;> simp [hb]
  · unfold webhookPOST
    by_cases hsig : verifySignature hmac secret rawBody signature <;> simp [hsig]
    cases parse rawBody <;> simp

/-- Witness for C8 at a concrete input: verified signature, malformed body. -/
theorem C8_witness :
    webhookPOST (fun _ _ => "sig") "k" (fun _ => ParsedBody.malformed) "body" (some "sig")
      [⟨"o1", "s1", none, 200, "pending"⟩]
      = (WebhookResp.serverError, [⟨"o1", "s1", none, 200, "pending"⟩]) :=
  (C8_malformed_payload (fun _ _ => "sig") "k" (fun _ => ParsedBody.malformed) "body"
    (some "sig") [⟨"o1", "s1", none, 200, "pending"⟩]).1 (by decide) (Or.inl rfl)

/-! Claim theorems for the pay-initiation endpoint. -/

/-- C9: a request with any of the three fields missing is answered 400 with
the missing-fields error and the gateway is never called; a request with all
three fields present and truthy reaches the gateway with the amount multiplied
by 100, and the gateway's body is returned verbatim with status 200 when the
gateway response is ok, or wrapped in a 400 error response when it is not. -/
theorem C9_pay_endpoint (gateway : String → Int → String → GatewayResponse)
    (body : PayBody) :
    ((body.email = none ∨ body.amount = none ∨ body.reference = none) →
      payPOST gateway body = (PayResp.missing400, none)) ∧
    (∀ e a r, body = ⟨some e, some a, some r⟩ → e ≠ "" → a ≠ 0 → r ≠ "" →
      payPOST gateway body =
        (if (gateway e (a * 100) r).ok then PayResp.success200 (gateway e (a * 100) r).body
         else PayResp.gatewayError400 (gateway e (a * 100) r).body,
         some (e, a * 100, r))) := by
  constructor
  · intro h
    rcases h with h | h | h <;> simp [payPOST, h, truthyStr, truthyInt]
  · intro e a r hb he ha hr
    subst hb
    simp only [payPOST, truthyStr, truthyInt]
    rw [if_neg (by simp [he, ha, hr])]
    by_cases hok : (gateway e (a * 100) r).ok <;> simp [hok]

/-- Witness for C9 at a concrete input: a complete truthy body reaches the
gateway with the amount in minor units and an ok response is relayed. -/
theorem C9_witness :
    payPOST (fun _ _ _ => ⟨true, "gw"⟩) ⟨some "a@b.c", some 200, some "o1"⟩
      = (PayResp.success200 "gw", some ("a@b.c", 20000, "o1")) := by
  rw [(C9_pay_endpoint (fun _ _ _ => ⟨true, "gw"⟩) ⟨some "a@b.c", some 200, some "o1"⟩).2
    "a@b.c" 200 "o1" rfl (by decide) (by decide) (by decide)]
  decide

/-- C10: the required-field check is a truthiness check, so an amount equal to
0, an empty email or an empty reference is rejected with the 400
missing-fields response and the gateway is never called. -/
theorem C10_falsy_fields_rejected (gateway : String → Int → String → GatewayResponse)
    (body : PayBody)
    (h : body.amount = some 0 ∨ body.email = some "" ∨ body.reference = some "") :
    payPOST gateway body = (PayResp.missing400, none) := by
  rcases h with h | h | h <;> simp [payPOST, h, truthyStr, truthyInt]

/-- Witness for C10 at a concrete input: amount present but zero. -/
theorem C10_witness :
    payPOST (fun _ _ _ => ⟨true, "gw"⟩) ⟨some "a@b.c", some 0, some "o1"⟩
      = (PayResp.missing400, none) :=
  C10_falsy_fields_rejected (fun _ _ _ => ⟨true, "gw"⟩) ⟨some "a@b.c", some 0, some "o1"⟩
    (Or.inl rfl)

/-! Claim theorems for the checkout flow. -/

/-- C3: when the cart splits as pre ++ item :: suf, every line before item
passes validation and item's freshly fetched row has stock below the requested
quantity, both checkout variants abort at that first failing line with the
insufficient-stock error naming item's product, return the store unchanged (no
order row, no order_items rows, no stock write) and never reach the pay
call. -/
theorem C3_insufficient_stock_aborts (db : DB) (sid oid : String) (u : User)
    (pay : String → Int → String → Option String)
    (cart pre suf : List CartItem) (item : CartItem) (l : Product)
    (hcart : cart = pre ++ item :: suf)
    (hpre : ∀ j ∈ pre,
      lineFails (fetchByIds db.products (cart.map fun i => i.product.id)) j = false)
    (hfind : findLatest (fetchByIds db.products (cart.map fun i => i.product.id))
      item.product.id = some l)
    (hstock : l.stock < item.quantity) :
    supermarketCheckout db sid oid cart
      = (CheckoutResult.insufficientStock item.product.name, db) ∧
    loginCheckout db sid (some u) oid cart pay
      = (LoginCheckoutResult.insufficientStock item.product.name, db, none) := by
  have hfail :
      lineFails (fetchByIds db.products (cart.map fun i => i.product.id)) item = true := by
    unfold lineFails
    rw [hfind]
    simpa using hstock
  have hval :
      validateCart (fetchByIds db.products (cart.map fun i => i.product.id)) cart
        = some item.product.name := by
    rw [hcart]
    exact validateCart_append_fail _ pre suf item (by rw [← hcart]; exact hpre)
      (by rw [← hcart]; exact hfail)
  have hne : cart.isEmpty = false := by
    subst hcart
    simp
  constructor
  · unfold supermarketCheckout
    rw [hne]
    simp [hval]
  · unfold loginCheckout
    rw [hne]
    simp [hval]

/-- Witness for C3 at a concrete input: a single-line cart asking for 5 of a
product whose stored stock is 1. -/
theorem C3_witness :
    supermarketCheckout ⟨[⟨"p1", "Apple", 100, 1⟩], [], []⟩ "s1" "o1"
        [⟨⟨"p1", "Apple", 100, 1⟩, 5⟩]
      = (CheckoutResult.insufficientStock "Apple", ⟨[⟨"p1", "Apple", 100, 1⟩], [], []⟩) :=
  (C3_insufficient_stock_aborts ⟨[⟨"p1", "Apple", 100, 1⟩], [], []⟩ "s1" "o1"
    ⟨"u1", "a@b.c"⟩ (fun _ _ _ => none) [⟨⟨"p1", "Apple", 100, 1⟩, 5⟩] [] []
    ⟨⟨"p1", "Apple", 100, 1⟩, 5⟩ ⟨"p1", "Apple", 100, 1⟩ rfl (by simp) (by decide)
    (by decide)).1

/-- Store for the C1 counterexample: the stored price of p1 is 150, the cart
snapshot still says 100. -/
def c1db : DB := ⟨[⟨"p1", "Apple", 150, 5⟩], [], []⟩

/-- Cart for the C1 counterexample: one line, snapshot price 100, quantity 2. -/
def c1cart : List CartItem := [⟨⟨"p1", "Apple", 100, 5⟩, 2⟩]

/-- C1 counterexample: checkout passes stock validation, yet the created
order's total_amount is 200, the quantity times the CART SNAPSHOT price, while
the sum over the freshly re-fetched store prices is 300 — the code charges the
stale client price, contradicting the claim. -/
theorem C1_counterexample :
    (supermarketCheckout c1db "s1" "o1" c1cart).1 = CheckoutResult.success "o1" ∧
    (supermarketCheckout c1db "s1" "o1" c1cart).2.orders.map Order.total_amount = [200] ∧
    specFreshTotal c1db.products c1cart = 300 ∧ (200 : Int) ≠ 300 :=
  ⟨rfl, rfl, rfl, by decide⟩

/-- C1 amended: for every checkout that passes stock validation, the created
order's total_amount equals the sum over cart lines of quantity times the
PRICE SNAPSHOT STORED IN THE CLIENT-HELD CART, not the freshly re-fetched
price; this holds for the plain supermarket variant and the login-page
variant alike. -/
theorem C1_total_uses_snapshot_price (db : DB) (sid oid : String) (u : User)
    (pay : String → Int → String → Option String) (cart : List CartItem)
    (hne : cart ≠ [])
    (hval : validateCart (fetchByIds db.products (cart.map fun i => i.product.id)) cart
      = none) :
    (supermarketCheckout db sid oid cart).2.orders =
      db.orders ++
        [⟨oid, sid, none, (cart.map (fun i => i.quantity * i.product.price)).sum,
          "pending"⟩] ∧
    (loginCheckout db sid (some u) oid cart pay).2.1.orders =
      db.orders ++
        [⟨oid, sid, some u.id, (cart.map (fun i => i.quantity * i.product.price)).sum,
          "pending"⟩] := by
  have hie : cart.isEmpty = false := by
    cases cart with
    | nil => exact absurd rfl hne
    | cons a t => rfl
  constructor
  · rw [supermarketCheckout_success_eq db sid oid cart hne hval]
    simp [cartTotal_eq_sum]
  · unfold loginCheckout
    rw [hie]
    simp only [Bool.false_eq_true, if_false, hval]
    cases pay u.email (cartTotal cart) oid <;> simp [cartTotal_eq_sum]

/-- Witness for C1 amended at a concrete input. -/
theorem C1_witness :
    (supermarketCheckout c1db "s1" "o1" c1cart).2.orders
      = [⟨"o1", "s1", none, 200, "pending"⟩] := by
  have h := (C1_total_uses_snapshot_price c1db "s1" "o1" ⟨"u1", "a@b.c"⟩
    (fun _ _ _ => none) c1cart (by decide) (by decide)).1
  rw [h]
  decide

/-- Store for the C2 counterexample: the stored stock of p1 is 10, the cart
snapshot still says 5. -/
def c2db : DB := ⟨[⟨"p1", "Apple", 100, 10⟩], [], []⟩

/-- Cart for the C2 counterexample: one line, snapshot stock 5, quantity 2. -/
def c2cart : List CartItem := [⟨⟨"p1", "Apple", 100, 5⟩, 2⟩]

/-- C2 counterexample: checkout succeeds (2 ≤ fresh stock 10), but the stock
write sets p1's stored stock to 3 = snapshot stock 5 minus quantity 2, a
decrease of 7, not of the line quantity 2 — the write uses the cart-snapshot
stock, contradicting the claim. -/
theorem C2_counterexample :
    (supermarketCheckout c2db "s1" "o1" c2cart).1 = CheckoutResult.success "o1" ∧
    getProduct (supermarketCheckout c2db "s1" "o1" c2cart).2.products "p1"
      = some ⟨"p1", "Apple", 100, 3⟩ ∧
    (10 : Int) - 3 ≠ 2 :=
  ⟨rfl, rfl, by decide⟩

/-- C2 amended: for every succeeding checkout of the plain supermarket variant
whose cart lines name pairwise distinct products, the stock-write loop issues
one independent write per line that SETS the product's stored stock to the
CART SNAPSHOT's stock minus the line quantity (so the stored stock decreases
by exactly the quantity only when the snapshot agrees with the store); the
login-page variant issues no stock writes at all. -/
theorem C2_stock_write_uses_snapshot (db : DB) (sid oid : String) (u : User)
    (pay : String → Int → String → Option String) (cart : List CartItem)
    (hne : cart ≠ [])
    (hval : validateCart (fetchByIds db.products (cart.map fun i => i.product.id)) cart
      = none)
    (hnd : (cart.map fun i => i.product.id).Nodup) :
    (∀ item ∈ cart, ∃ p0, getProduct db.products item.product.id = some p0 ∧
        getProduct (supermarketCheckout db sid oid cart).2.products item.product.id
          = some { p0 with stock := item.product.stock - item.quantity }) ∧
    (loginCheckout db sid (some u) oid cart pay).2.1.products = db.products := by
  constructor
  · intro item hmem
    have hlf := validateCart_none_mem hval hmem
    obtain ⟨l, hfind, _⟩ := lineFails_false_iff hlf
    obtain ⟨hlmem, hlid⟩ := findLatest_fetchByIds hfind
    have hsome : (getProduct db.products item.product.id).isSome := by
      rw [← hlid]
      exact getProduct_isSome_of_mem hlmem
    obtain ⟨p0, hp0⟩ := Option.isSome_iff_exists.mp hsome
    refine ⟨p0, hp0, ?_⟩
    rw [supermarketCheckout_success_eq db sid oid cart hne hval]
    rw [getProduct_decrementAll_mem db.products cart hnd hmem, hp0]
    rfl
  · exact loginCheckout_products_unchanged db sid (some u) oid cart pay

/-- Witness for C2 amended at a concrete input. -/
theorem C2_witness :
    ∃ p0, getProduct c2db.products "p1" = some p0 ∧
      getProduct (supermarketCheckout c2db "s1" "o1" c2cart).2.products "p1"
        = some { p0 with stock := 5 - 2 } :=
  (C2_stock_write_uses_snapshot c2db "s1" "o1" ⟨"u1", "a@b.c"⟩ (fun _ _ _ => none)
    c2cart (by decide) (by decide) (by decide)).1 ⟨⟨"p1", "Apple", 100, 5⟩, 2⟩
    (by decide)

/-- Store for the C7 counterexample. -/
def c7db : DB := ⟨[⟨"p1", "Apple", 100, 5⟩], [], []⟩

/-- Cart for the C7 counterexample. -/
def c7cart : List CartItem := [⟨⟨"p1", "Apple", 100, 5⟩, 2⟩]

/-- C7 counterexample: the plain supermarket checkout consults no
authentication state whatsoever (the component has no user), yet for an
anonymous actor it reads stock, succeeds, and inserts an order row (with a
null user_id) and an order_items row — contradicting the claim that every
checkout with unresolved buyer identity fails with AuthenticationRequired and
creates nothing. -/
theorem C7_counterexample :
    (supermarketCheckout c7db "s1" "o1" c7cart).1 = CheckoutResult.success "o1" ∧
    (supermarketCheckout c7db "s1" "o1" c7cart).2.orders
      = [⟨"o1", "s1", none, 200, "pending"⟩] ∧
    (supermarketCheckout c7db "s1" "o1" c7cart).2.order_items
      = [⟨"o1", "p1", 2, 100⟩] :=
  ⟨rfl, rfl, rfl⟩

/-- C7 amended: in the two authenticated variants — the login-page checkout
and the toast-based supermarket checkout — an anonymous actor is rejected
before anything else happens: the store is returned untouched (nothing read
from it influences the result, no order or order_items rows are created, no
stock is written) and the pay call is never made; the plain supermarket
variant, however, has no authentication gate at all. -/
theorem C7_auth_gate_authenticated_variants (db : DB) (sid oid : String)
    (cart : List CartItem) (pay : String → Int → String → Option String)
    (ss : Option String) :
    loginCheckout db sid none oid cart pay = (LoginCheckoutResult.authRequired, db, none) ∧
    toastCheckout db none ss oid cart = (ToastCheckoutResult.loginFirst, db) :=
  ⟨rfl, rfl⟩

end SnapCart
